import Mathlib

/-!
Verification of the LD_Cool_P curation workflow (`ldcoolp`) against its
natural-language specification.

The development shallowly embeds the Python source files

  * `src/ldcoolp/curation/api/figshare.py`  (`FigshareInstituteAdmin`)
  * `src/ldcoolp/curation/retrieve.py`      (`download_files`)
  * `src/ldcoolp/curation/inspection/readme/__init__.py` (`ReadmeClass`)
  * `src/ldcoolp/curation/main.py`          (`workflow`)

as executable Lean functions.  Remote-service interactions are made explicit:
the records the Figshare service holds are parameters, each HTTP request the
code would issue is recorded in a `Req` trace, a fallible remote lookup is a
function into `Except String`, and operator keyboard input is a `String`
parameter.  Python string operations that the code relies on are re-defined
over `List Char` so that every definition evaluates inside the kernel.
-/

namespace LDCoolP

/-- Python `str.lower()`, used by `reserve_doi` on the operator response. -/
def pyLower (s : String) : String := ⟨s.data.map Char.toLower⟩

/-- Whether `pat` occurs as a contiguous substring, Python `pat in s` /
`Series.str.contains` used by `get_account_list` for test accounts. -/
def subList : List Char → List Char → Bool
  | _, [] => true
  | [], _ :: _ => false
  | c :: rest, pat => (pat.isPrefixOf (c :: rest)) || subList rest pat

/-- Auxiliary fuelled loop for `pyReplace`; fuel `s.length` suffices because
each step consumes at least one character of `s`. -/
def replFuel : Nat → List Char → List Char → List Char → List Char
  | 0, s, _, _ => s
  | _ + 1, [], _, _ => []
  | fuel + 1, c :: rest, pat, rep =>
    if pat ≠ [] ∧ pat.isPrefixOf (c :: rest) then
      rep ++ replFuel fuel ((c :: rest).drop pat.length) pat rep
    else
      c :: replFuel fuel rest pat rep

/-- Python `str.replace(pat, rep)` (all occurrences, left to right), used by
`get_account_details` to substitute group names for group ids. -/
def pyReplace (s pat rep : String) : String :=
  ⟨replFuel s.data.length s.data pat.data rep.data⟩

/-- One HTTP request issued through `issue_request`. -/
inductive Req where
  | get (endpoint : String)
  | post (endpoint : String)
deriving DecidableEq, Repr

/-! ## Pagination (`figshare.py`, `get_articles` and friends)

Every listing endpoint of `FigshareInstituteAdmin` issues a single
`issue_request('GET', url, headers, params={'page': 1, 'page_size': 1000})`
and wraps the response in a DataFrame.  `pageOf` models the slice of its
record store the service answers with for a given page. -/

/-- The page of records the Figshare service returns for 1-based `page`
and `pageSize`: the corresponding contiguous slice of its record store. -/
def pageOf (records : List α) (page pageSize : Nat) : List α :=
  (records.drop ((page - 1) * pageSize)).take pageSize

/-- `FigshareInstituteAdmin.get_articles`: one GET for page 1 with
page size 1000; the result is that single page, the second component the
number of page requests issued (the method performs exactly one). -/
def get_articles (records : List α) : List α × Nat :=
  (pageOf records 1 1000, 1)

/-! ## DOI check and reservation (`figshare.py`, `doi_check` / `reserve_doi`) -/

/-- Endpoint of the private article-details request (`articles/{article_id}`,
`institute=False`). -/
def articleUrl (article_id : Nat) : String := "articles/" ++ toString article_id

/-- Endpoint of the DOI reservation request
(`articles/{article_id}/reserve_doi`, `institute=False`). -/
def reserveUrl (article_id : Nat) : String :=
  articleUrl article_id ++ "/reserve_doi"

/-- `FigshareInstituteAdmin.doi_check`: GETs the article details, then
returns `(check, doi)` where `check` is the Python truthiness of the `doi`
field (non-empty string) and `doi` the field itself; the second component
is the list of requests issued. -/
def doi_check (article_id : Nat) (doi : String) : (Bool × String) × List Req :=
  ((decide (doi ≠ ""), doi), [Req.get (articleUrl article_id)])

/-- Observable outcome of one `reserve_doi` call: the string the method
returns, the article's `doi` field afterwards, the requests issued, and
whether the operator was prompted for input. -/
structure ReserveOutcome where
  returned : String
  finalDoi : String
  reqs : List Req
  prompted : Bool
deriving DecidableEq, Repr

/-- `FigshareInstituteAdmin.reserve_doi`: runs `doi_check`; if the DOI is
already reserved, returns it with no prompt and no further request;
otherwise prompts, and POSTs the reservation only when the response
lowercases to `"yes"` (`mintDoi` being the DOI the service then mints);
any other response skips and returns the (empty) placeholder DOI. -/
def reserve_doi (article_id : Nat) (doi response mintDoi : String) :
    ReserveOutcome :=
  let c := doi_check article_id doi
  if c.1.1 then
    { returned := c.1.2, finalDoi := doi, reqs := c.2, prompted := false }
  else if pyLower response = "yes" then
    { returned := mintDoi, finalDoi := mintDoi,
      reqs := c.2 ++ [Req.post (reserveUrl article_id)], prompted := true }
  else
    { returned := c.1.2, finalDoi := doi, reqs := c.2, prompted := true }

/-- Number of mutating (POST) requests in a trace; DOI minting requests are
the only POSTs in the embedded fragment. -/
def mintCount (reqs : List Req) : Nat :=
  (reqs.filter fun r => match r with | Req.post _ => true | _ => false).length

/-! ## README template selection and the stage-advancement guard -/

/-- `ReadmeClass.__init__` (readme/`__init__.py` lines 96-107): the value of
`self.template_source`, given whether the user-supplied template file exists
in the DATA folder and the operator's response to the prompt; `'user'`
requires the response to be exactly `"Yes"`. -/
def template_source (userTemplateExists : Bool) (response : String) : String :=
  if userTemplateExists then
    if response = "Yes" then "user" else "default"
  else "default"

/-- `workflow` (main.py line 158): the stage-advancement confirmation prompt
is reached exactly when `rc.template_source != 'unknown'`. -/
def stage_prompt_reached (ts : String) : Bool := decide (ts ≠ "unknown")

/-! ## Account aggregation (`figshare.py`, `get_account_list` /
`get_account_details`)

`get_account_details` builds one row per institutional account, merging the
base account listing with a group-role lookup and three impersonated count
listings per account.  The three count lookups are each wrapped in
`try/except`; the role lookup is not. -/

/-- One raw account record (only the fields the code touches). -/
structure Account where
  id : Nat
  email : String
deriving DecidableEq, Repr

/-- A pandas DataFrame built from a list of records: the column index and
the rows.  A frame built from an empty record list has no columns at all. -/
structure DataFrame (α : Type) where
  cols : List String
  rows : List α
deriving DecidableEq, Repr

/-- `pd.DataFrame(records)`: columns are the record keys, except that an
empty record list yields a columnless frame. -/
def DataFrame.ofRecords (keys : List String) (rows : List α) : DataFrame α :=
  { cols := if rows.isEmpty then [] else keys, rows := rows }

/-- `DataFrame.drop(columns=c)`: pandas raises a `KeyError` when the column
is not present in the frame. -/
def DataFrame.dropColumn (df : DataFrame α) (c : String) :
    Except String (DataFrame α) :=
  if c ∈ df.cols then Except.ok { cols := df.cols.erase c, rows := df.rows }
  else Except.error ("KeyError: " ++ c)

/-- `df[c]` column access with the column read through `proj`: pandas
raises a `KeyError` when the column is absent — in particular, every
access on the columnless empty frame raises. -/
def DataFrame.col (df : DataFrame α) (c : String) (proj : α → β) :
    Except String (List β) :=
  if c ∈ df.cols then Except.ok (df.rows.map proj)
  else Except.error ("KeyError: " ++ c)

/-- Keys of a Figshare account record (the ones the code touches). -/
def accountKeys : List String := ["id", "email", "institution_id"]

/-- Keys of a Figshare group record (the ones the code touches). -/
def groupKeys : List String := ["id", "name"]

/-- Administrative account excluded by `ignore_admin` (exact match). -/
def adminEmail : String := "data-management@email.arizona.edu"

/-- Test-account pattern excluded by `ignore_admin` (substring match). -/
def testEmailPat : String := "-test@email.arizona.edu"

/-- `FigshareInstituteAdmin.get_account_list`: a single page-1 GET (page
size 1000), the response wrapped in a DataFrame, the `institution_id`
column dropped, and, when `ignore_admin`, administrative and test accounts
filtered out. -/
def get_account_list (accounts : List Account) (ignore_admin : Bool) :
    Except String (DataFrame Account) := do
  let df := DataFrame.ofRecords accountKeys (pageOf accounts 1 1000)
  let df ← df.dropColumn "institution_id"
  if ignore_admin then
    Except.ok { df with rows := df.rows.filter fun a =>
      !((a.email == adminEmail) || subList a.email.data testEmailPat.data) }
  else
    Except.ok df

/-- The remote-service state `get_account_details` runs against: the account
store, the group rows, and the per-account lookups, each of which may fail
the way a raising `issue_request` does. -/
structure FigEnv where
  accounts : List Account
  groups : List (Nat × String)
  roles : Nat → Except String (List (String × List Nat))
  userArticles : Nat → Except String (List Nat)
  userProjects : Nat → Except String (List Nat)
  userCollections : Nat → Except String (List Nat)

/-- `get_user_articles`: impersonated single-page listing (page 1, size
1000); a failing request propagates. -/
def get_user_articles (env : FigEnv) (account_id : Nat) :
    Except String (List Nat) := do
  let recs ← env.userArticles account_id
  Except.ok (pageOf recs 1 1000)

/-- `get_user_projects`: impersonated single-page listing. -/
def get_user_projects (env : FigEnv) (account_id : Nat) :
    Except String (List Nat) := do
  let recs ← env.userProjects account_id
  Except.ok (pageOf recs 1 1000)

/-- `get_user_collections`: impersonated single-page listing. -/
def get_user_collections (env : FigEnv) (account_id : Nat) :
    Except String (List Nat) := do
  let recs ← env.userCollections account_id
  Except.ok (pageOf recs 1 1000)

/-- The `log.warn` message of `get_account_details` when an impersonated
listing fails for an account. -/
def countWarn (what : String) (account_id : Nat) : String :=
  "Unable to retrieve " ++ what ++ " for : " ++ toString account_id

/-- One guarded count lookup of `get_account_details`: on success the
length of the returned listing, on failure a zero count plus the warning. -/
def countOrWarn (r : Except String (List Nat)) (w : String) :
    Nat × List String :=
  match r with
  | Except.ok l => (l.length, [])
  | Except.error _ => (0, [w])

/-- One aggregated row of `get_account_details` (original columns plus the
Articles/Projects/Collections counts, Admin/Reviewer flags and Group). -/
structure AccountDetail where
  id : Nat
  email : String
  articles : Nat
  projects : Nat
  collections : Nat
  admin : String
  reviewer : String
  group : String
deriving DecidableEq, Repr

/-- The body of the per-account loop of `get_account_details`: the
*unguarded* role lookup, then the three individually guarded count lookups,
then the role scan (`id == 11` sets the group key — last key wins — and,
when `flag`, `id == 2` / `id == 49` set the Admin / Reviewer marks). -/
def processAccount (env : FigEnv) (flag : Bool) (a : Account) :
    Except String (AccountDetail × List String) := do
  let roles ← env.roles a.id
  let art := countOrWarn (get_user_articles env a.id) (countWarn "articles" a.id)
  let prj := countOrWarn (get_user_projects env a.id) (countWarn "projects" a.id)
  let col := countOrWarn (get_user_collections env a.id) (countWarn "collections" a.id)
  Except.ok
    ({ id := a.id, email := a.email,
       articles := art.1, projects := prj.1, collections := col.1,
       admin := if flag && roles.any (fun kv => kv.2.contains 2) then "X" else "",
       reviewer := if flag && roles.any (fun kv => kv.2.contains 49) then "X" else "",
       group := roles.foldl (fun acc kv => if kv.2.contains 11 then kv.1 else acc) "N/A" },
     art.2 ++ prj.2 ++ col.2)

/-- The per-account loop over the listed accounts, in listing order; a
role-lookup failure propagates out of the loop. -/
def processAccounts (env : FigEnv) (flag : Bool) :
    List Account → Except String (List AccountDetail × List String)
  | [] => Except.ok ([], [])
  | a :: rest => do
    let (d, w) ← processAccount env flag a
    let (ds, ws) ← processAccounts env flag rest
    Except.ok (d :: ds, w ++ ws)

/-- The group-name substitution `get_account_details` applies to every
`group_assoc` entry once the group list is fetched: each group's numeric id
is textually replaced by its name. -/
def substGroups (groups : List (Nat × String)) (s : String) : String :=
  groups.foldl (fun acc g => pyReplace acc (toString g.1) g.2) s

/-- `FigshareInstituteAdmin.get_account_details`: the account listing, the
group listing wrapped in a DataFrame, the per-account loop, then the
group-name substitution driven by `zip(groups_df['id'], groups_df['name'])`
on each row's Group entry.  Returns the rows and the warnings logged.  The
two column subscripts raise a `KeyError` when the institution has zero
groups (the empty frame is columnless), aborting the call after the loop. -/
def get_account_details (env : FigEnv) (flag ignore_admin : Bool) :
    Except String (List AccountDetail × List String) :=
  match get_account_list env.accounts ignore_admin with
  | Except.error e => Except.error e
  | Except.ok accounts_df =>
    let groups_df := DataFrame.ofRecords groupKeys env.groups
    match processAccounts env flag accounts_df.rows with
    | Except.error e => Except.error e
    | Except.ok (ds, ws) =>
      match groups_df.col "id" Prod.fst, groups_df.col "name" Prod.snd with
      | Except.error e, _ => Except.error e
      | _, Except.error e => Except.error e
      | Except.ok gids, Except.ok gnames =>
        Except.ok
          (ds.map fun d =>
            { d with group := substGroups (gids.zip gnames) d.group }, ws)

/-! ### Reference functions for the aggregation theorems -/

/-- The account rows `get_account_details` iterates over when
`ignore_admin = False`: page 1 of the account store. -/
def listedAccounts (env : FigEnv) : List Account := pageOf env.accounts 1 1000

/-- The count a guarded lookup records: page length on success, zero on
failure. -/
def countOf (r : Except String (List Nat)) : Nat :=
  match r with
  | Except.ok l => l.length
  | Except.error _ => 0

/-- The warnings a guarded lookup logs: none on success, the given warning
on failure. -/
def warnOf (r : Except String (List Nat)) (w : String) : List String :=
  match r with
  | Except.ok _ => []
  | Except.error _ => [w]

/-- The role list of an account, when its role lookup succeeds. -/
def rolesOr (env : FigEnv) (aid : Nat) : List (String × List Nat) :=
  match env.roles aid with
  | Except.ok rs => rs
  | Except.error _ => []

/-- The row `get_account_details` produces for one account whose role
lookup succeeds (before group-name substitution): best-effort counts and
role-derived flags. -/
def detailPure (env : FigEnv) (flag : Bool) (a : Account) : AccountDetail :=
  { id := a.id, email := a.email,
    articles := countOf (get_user_articles env a.id),
    projects := countOf (get_user_projects env a.id),
    collections := countOf (get_user_collections env a.id),
    admin := if flag && (rolesOr env a.id).any (fun kv => kv.2.contains 2)
             then "X" else "",
    reviewer := if flag && (rolesOr env a.id).any (fun kv => kv.2.contains 49)
                then "X" else "",
    group := (rolesOr env a.id).foldl
      (fun acc kv => if kv.2.contains 11 then kv.1 else acc) "N/A" }

/-- The warnings logged for one account: one per failed count lookup. -/
def warnsPure (env : FigEnv) (a : Account) : List String :=
  warnOf (get_user_articles env a.id) (countWarn "articles" a.id) ++
  warnOf (get_user_projects env a.id) (countWarn "projects" a.id) ++
  warnOf (get_user_collections env a.id) (countWarn "collections" a.id)

/-- A row after the group-name substitution. -/
def withGroupNames (env : FigEnv) (d : AccountDetail) : AccountDetail :=
  { d with group := substGroups env.groups d.group }

/-- Remote state for the C2 counterexample: two accounts, a nonempty group
list, every count lookup fine, but the group-role lookup failing for
account 2 only — so the role lookup is the only failing remote call. -/
def envRoleFail : FigEnv :=
  { accounts := [⟨1, "a@x.edu"⟩, ⟨2, "b@x.edu"⟩],
    groups := [(10, "Math")],
    roles := fun aid =>
      if aid = 1 then Except.ok [("10", [11])] else Except.error "HTTP 500",
    userArticles := fun _ => Except.ok [100],
    userProjects := fun _ => Except.ok [],
    userCollections := fun _ => Except.ok [] }

/-- Remote state shared by the aggregation witnesses: two accounts, the
articles lookup failing for account 2 only, roles fine for both. -/
def envW : FigEnv :=
  { accounts := [⟨1, "a@x.edu"⟩, ⟨2, "b@x.edu"⟩],
    groups := [(10, "Math")],
    roles := fun aid =>
      if aid = 1 then Except.ok [("10", [11, 2])] else Except.ok [],
    userArticles := fun aid =>
      if aid = 2 then Except.error "HTTP 500" else Except.ok [100, 101],
    userProjects := fun _ => Except.ok [200],
    userCollections := fun _ => Except.ok [] }

/-- Remote state with zero institutional accounts. -/
def envEmpty : FigEnv :=
  { accounts := [], groups := [],
    roles := fun _ => Except.ok [],
    userArticles := fun _ => Except.ok [],
    userProjects := fun _ => Except.ok [],
    userCollections := fun _ => Except.ok [] }

/-! ## File retrieval (`retrieve.py`, `download_files`)

`download_files` walks the deposit's file list; a file already on disk is
skipped, otherwise an authenticated retrieval is attempted, any
`urllib.error.HTTPError` triggers a single tokenless retry, and a second
`HTTPError` only logs a warning.  No other exception class is caught.
After the loop the data directory is locked to mode `0o555`. -/

/-- One entry of the deposit's file list (fields the code touches). -/
structure FileEntry where
  name : String
  size : Nat
  download_url : String
deriving DecidableEq, Repr

/-- Failure of one retrieval attempt: an HTTP error response
(`urllib.error.HTTPError`, of any status) or a non-HTTP transport failure
(e.g. `URLError`), which nothing in `download_files` catches. -/
inductive FetchErr where
  | http (code : Nat)
  | network
deriving DecidableEq, Repr

/-- The retrieval transport `private_file_retrieve` (which re-raises every
`HTTPError` it logs): URL and whether the request carries the API token,
yielding the downloaded content or a failure. -/
structure FetchEnv where
  retrieve : String → Bool → Except FetchErr String

/-- The local file system: a path-to-content association list.  The loop
reads it through `exists` and writes a retrieved file's content. -/
abbrev FileSys : Type := List (String × String)

/-- Whether a path exists (`os.path.exists`). -/
def FileSys.hasFile (fs : FileSys) (p : String) : Bool :=
  (List.lookup p fs).isSome

/-- Content of a path, if present. -/
def FileSys.content (fs : FileSys) (p : String) : Option String :=
  List.lookup p fs

/-- Writing a new file. -/
def FileSys.write (fs : FileSys) (p c : String) : FileSys := (p, c) :: fs

/-- `os.path.join(dir_path, file_dict['name'])`. -/
def localPath (dirPath : String) (f : FileEntry) : String :=
  dirPath ++ "/" ++ f.name

/-- Observable events of a `download_files` run, in order: directory
creation, `permissions.curation` calls (`mode = none` is the call with the
default mode at line 95, `some 0o555` the lock-down at line 129), the
file-list metadata dump, and each network retrieval attempt. -/
inductive Ev where
  | mkdirs (dir : String)
  | curationPerm (dir : String) (mode : Option Nat)
  | saveMeta
  | attempt (url : String) (withToken : Bool)
deriving DecidableEq, Repr

/-- One iteration of the download loop for file `f`: skip when the local
path exists; otherwise a token-bearing attempt; on `HTTPError` one
tokenless retry; a second `HTTPError` is only logged.  A non-HTTP failure
is not caught and escapes as `Except.error`. -/
def fetchOne (env : FetchEnv) (dirPath : String) (fs : FileSys)
    (f : FileEntry) : Except FetchErr (FileSys × List Ev) :=
  let filename := localPath dirPath f
  if fs.hasFile filename then
    Except.ok (fs, [])
  else
    match env.retrieve f.download_url true with
    | Except.ok content =>
      Except.ok (fs.write filename content, [Ev.attempt f.download_url true])
    | Except.error (FetchErr.http _) =>
      match env.retrieve f.download_url false with
      | Except.ok content =>
        Except.ok (fs.write filename content,
          [Ev.attempt f.download_url true, Ev.attempt f.download_url false])
      | Except.error (FetchErr.http _) =>
        Except.ok (fs,
          [Ev.attempt f.download_url true, Ev.attempt f.download_url false])
      | Except.error FetchErr.network => Except.error FetchErr.network
    | Except.error FetchErr.network => Except.error FetchErr.network

/-- The `for n, file_dict in zip(...)` loop, threading the file system and
collecting events; an uncaught failure aborts the remainder. -/
def downloadLoop (env : FetchEnv) (dirPath : String) :
    List FileEntry → FileSys → Except FetchErr (FileSys × List Ev)
  | [], fs => Except.ok (fs, [])
  | f :: rest, fs =>
    match fetchOne env dirPath fs f with
    | Except.error e => Except.error e
    | Except.ok (fs1, evs) =>
      match downloadLoop env dirPath rest fs1 with
      | Except.error e => Except.error e
      | Except.ok (fs2, evs2) => Except.ok (fs2, evs ++ evs2)

/-- Result of a completed `download_files` run. -/
structure DLResult where
  fs : FileSys
  events : List Ev
deriving DecidableEq, Repr

/-- Events before the loop: directory creation, curation permissions with
the default mode, file-list metadata dump. -/
def dlStart (dirPath : String) : List Ev :=
  [Ev.mkdirs dirPath, Ev.curationPerm dirPath none, Ev.saveMeta]

/-- The lock-down event: `permissions.curation(dir_path, mode=0o555)`. -/
def dlLock (dirPath : String) : Ev := Ev.curationPerm dirPath (some 0o555)

/-- `download_files` (retrieve.py lines 62-129): directory setup and
metadata dump, the per-file loop, then the single 0o555 lock-down.  The
call fails when an uncaught (non-HTTP) error escapes the loop. -/
def download_files (env : FetchEnv) (dirPath : String)
    (file_list : List FileEntry) (fs0 : FileSys) : Except FetchErr DLResult :=
  match downloadLoop env dirPath file_list fs0 with
  | Except.error e => Except.error e
  | Except.ok (fs1, evs) =>
    Except.ok { fs := fs1, events := dlStart dirPath ++ evs ++ [dlLock dirPath] }

/-! ### Reference functions for the retrieval theorems -/

/-- No retrieval ever fails with a non-HTTP transport error (the regime in
which `download_files` completes). -/
def noNetworkErr (env : FetchEnv) : Prop :=
  ∀ u b, env.retrieve u b ≠ Except.error FetchErr.network

/-- One loop iteration, with every failure treated like the caught
`HTTPError` (total); coincides with `fetchOne` under `noNetworkErr`. -/
def fetchOnePure (env : FetchEnv) (dirPath : String) (fs : FileSys)
    (f : FileEntry) : FileSys × List Ev :=
  let filename := localPath dirPath f
  if fs.hasFile filename then (fs, [])
  else
    match env.retrieve f.download_url true with
    | Except.ok content =>
      (fs.write filename content, [Ev.attempt f.download_url true])
    | Except.error _ =>
      match env.retrieve f.download_url false with
      | Except.ok content =>
        (fs.write filename content,
          [Ev.attempt f.download_url true, Ev.attempt f.download_url false])
      | Except.error _ =>
        (fs, [Ev.attempt f.download_url true, Ev.attempt f.download_url false])

/-- The total loop, keeping one event chunk per file. -/
def loopPure (env : FetchEnv) (dirPath : String) :
    List FileEntry → FileSys → FileSys × List (List Ev)
  | [], fs => (fs, [])
  | f :: rest, fs =>
    let p := fetchOnePure env dirPath fs f
    let q := loopPure env dirPath rest p.1
    (q.1, p.2 :: q.2)

/-- The shapes one file's event chunk can take: nothing (path already
present), a single authenticated attempt (it succeeded), or the
authenticated attempt followed by the tokenless retry (the first returned
an `HTTPError`). -/
def chunkSpec (env : FetchEnv) (f : FileEntry) (evs : List Ev) : Prop :=
  evs = [] ∨
  (∃ c, env.retrieve f.download_url true = Except.ok c ∧
    evs = [Ev.attempt f.download_url true]) ∨
  (∃ code,
    env.retrieve f.download_url true = Except.error (FetchErr.http code) ∧
    evs = [Ev.attempt f.download_url true, Ev.attempt f.download_url false])

/-- Transport for the C5 counterexample: every authenticated attempt fails
with HTTP 500 (a server error, not an authorization failure), every
anonymous attempt succeeds. -/
def env500 : FetchEnv :=
  { retrieve := fun _ b =>
      if b then Except.error (FetchErr.http 500) else Except.ok "content" }

/-- The single file used by the retrieval counterexample and witnesses. -/
def file500 : FileEntry :=
  { name := "f1.dat", size := 3, download_url := "u1" }

/-- Transport for the retrieval witnesses: authenticated attempts rejected
with HTTP 403, anonymous attempts succeed. -/
def envDL : FetchEnv :=
  { retrieve := fun _ b =>
      if b then Except.error (FetchErr.http 403) else Except.ok "payload" }

theorem processAccount_ok (env : FigEnv) (flag : Bool) (a : Account)
    (h : (env.roles a.id).isOk = true) :
    processAccount env flag a =
      Except.ok (detailPure env flag a, warnsPure env a) := by
  cases hr : env.roles a.id with
  | error e => rw [hr] at h; simp [Except.isOk, Except.toBool] at h
  | ok rs =>
    simp only [processAccount, hr, Except.bind, detailPure, warnsPure,
      rolesOr, countOrWarn, countOf, warnOf]
    cases get_user_articles env a.id <;>
      cases get_user_projects env a.id <;>
        cases get_user_collections env a.id <;> rfl

theorem processAccounts_ok (env : FigEnv) (flag : Bool) (l : List Account)
    (h : ∀ a ∈ l, (env.roles a.id).isOk = true) :
    processAccounts env flag l =
      Except.ok (l.map (detailPure env flag), l.flatMap (warnsPure env)) := by
  induction l with
  | nil => rfl
  | cons a rest ih =>
    have ha : (env.roles a.id).isOk = true := h a (List.mem_cons_self a rest)
    have hrest : ∀ b ∈ rest, (env.roles b.id).isOk = true :=
      fun b hb => h b (List.mem_cons_of_mem a hb)
    simp only [processAccounts, processAccount_ok env flag a ha, ih hrest,
      List.map, List.flatMap_cons]
    rfl

theorem get_account_list_false_ok (env : FigEnv)
    (hpq : pageOf env.accounts 1 1000 ≠ []) :
    get_account_list env.accounts false =
      Except.ok { cols := accountKeys.erase "institution_id",
                  rows := pageOf env.accounts 1 1000 } := by
  cases hA : pageOf env.accounts 1 1000 with
  | nil => exact absurd hA hpq
  | cons x xs => simp only [get_account_list, hA]; rfl

theorem zip_fst_snd (l : List (Nat × String)) :
    (l.map Prod.fst).zip (l.map Prod.snd) = l := by
  induction l with
  | nil => rfl
  | cons x xs ih => simp [List.zip_cons_cons, ih]

theorem groups_col_ok (env : FigEnv) (hg : env.groups ≠ []) :
    (DataFrame.ofRecords groupKeys env.groups).col "id" Prod.fst =
      Except.ok (env.groups.map Prod.fst) ∧
    (DataFrame.ofRecords groupKeys env.groups).col "name" Prod.snd =
      Except.ok (env.groups.map Prod.snd) := by
  cases hG : env.groups with
  | nil => exact absurd hG hg
  | cons g gs => exact ⟨rfl, rfl⟩

theorem get_account_details_ok (env : FigEnv)
    (hne : env.accounts ≠ []) (hg : env.groups ≠ [])
    (hroles : ∀ a ∈ listedAccounts env, (env.roles a.id).isOk = true) :
    get_account_details env true false =
      Except.ok
        (((listedAccounts env).map (detailPure env true)).map (withGroupNames env),
         (listedAccounts env).flatMap (warnsPure env)) := by
  have hpq : pageOf env.accounts 1 1000 ≠ [] := by
    intro hcontra
    have h0 : env.accounts.take 1000 = [] := by simpa [pageOf] using hcontra
    rcases List.take_eq_nil_iff.mp h0 with h | h
    · norm_num at h
    · exact hne h
  have hPA := processAccounts_ok env true (pageOf env.accounts 1 1000) hroles
  simp only [get_account_details, get_account_list_false_ok env hpq, hPA,
    (groups_col_ok env hg).1, (groups_col_ok env hg).2,
    zip_fst_snd env.groups]
  rfl

theorem fetchOne_ok (env : FetchEnv) (dirPath : String) (fs : FileSys)
    (f : FileEntry) (h : noNetworkErr env) :
    fetchOne env dirPath fs f = Except.ok (fetchOnePure env dirPath fs f) := by
  unfold fetchOne fetchOnePure
  by_cases hf : fs.hasFile (localPath dirPath f) = true
  · simp [hf]
  · simp only [Bool.not_eq_true] at hf
    cases h1 : env.retrieve f.download_url true with
    | ok c => simp [hf, h1]
    | error e =>
      cases e with
      | network => exact absurd h1 (h _ _)
      | http code =>
        cases h2 : env.retrieve f.download_url false with
        | ok c => simp [hf, h1, h2]
        | error e2 =>
          cases e2 with
          | network => exact absurd h2 (h _ _)
          | http c2 => simp [hf, h1, h2]

theorem downloadLoop_ok (env : FetchEnv) (dirPath : String)
    (h : noNetworkErr env) (files : List FileEntry) :
    ∀ fs : FileSys,
      downloadLoop env dirPath files fs =
        Except.ok ((loopPure env dirPath files fs).1,
          ((loopPure env dirPath files fs).2).flatten) := by
  induction files with
  | nil => intro fs; rfl
  | cons f rest ih =>
    intro fs
    simp only [downloadLoop, fetchOne_ok env dirPath fs f h, ih, loopPure,
      List.flatten_cons]

theorem download_files_char (env : FetchEnv) (dirPath : String)
    (files : List FileEntry) (fs0 : FileSys) (h : noNetworkErr env) :
    download_files env dirPath files fs0 =
      Except.ok
        { fs := (loopPure env dirPath files fs0).1,
          events := dlStart dirPath ++
            ((loopPure env dirPath files fs0).2).flatten ++
            [dlLock dirPath] } := by
  simp only [download_files, downloadLoop_ok env dirPath h files fs0]

theorem hasFile_write (fs : FileSys) (q c p : String) :
    (fs.write q c).hasFile p = (p == q || fs.hasFile p) := by
  cases hpq : p == q <;>
    simp [FileSys.write, FileSys.hasFile, List.lookup, hpq]

theorem content_write_ne (fs : FileSys) (q c p : String) (h : p ≠ q) :
    (fs.write q c).content p = fs.content p := by
  simp [FileSys.write, FileSys.content, List.lookup,
    beq_eq_false_iff_ne.mpr h]

theorem fetchOnePure_fs_hasFile (env : FetchEnv) (dirPath : String)
    (fs : FileSys) (f : FileEntry) (p : String) (h : fs.hasFile p = true) :
    (fetchOnePure env dirPath fs f).1.hasFile p = true := by
  unfold fetchOnePure
  by_cases hf : fs.hasFile (localPath dirPath f) = true
  · simp [hf, h]
  · simp only [Bool.not_eq_true] at hf
    cases h1 : env.retrieve f.download_url true with
    | ok c => simp [hf, h1, hasFile_write, h]
    | error e =>
      cases h2 : env.retrieve f.download_url false with
      | ok c => simp [hf, h1, h2, hasFile_write, h]
      | error e2 => simp [hf, h1, h2, h]

theorem loopPure_fs_hasFile (env : FetchEnv) (dirPath : String)
    (files : List FileEntry) (p : String) :
    ∀ fs : FileSys, fs.hasFile p = true →
      (loopPure env dirPath files fs).1.hasFile p = true := by
  induction files with
  | nil => intro fs h; exact h
  | cons f rest ih =>
    intro fs h
    exact ih _ (fetchOnePure_fs_hasFile env dirPath fs f p h)

theorem fetchOnePure_content (env : FetchEnv) (dirPath : String)
    (fs : FileSys) (f : FileEntry) (p c : String)
    (h : fs.content p = some c) :
    (fetchOnePure env dirPath fs f).1.content p = some c := by
  have hp : fs.hasFile p = true := by
    unfold FileSys.hasFile
    unfold FileSys.content at h
    rw [h]
    rfl
  unfold fetchOnePure
  by_cases hf : fs.hasFile (localPath dirPath f) = true
  · simp [hf, h]
  · simp only [Bool.not_eq_true] at hf
    have hne : p ≠ localPath dirPath f := by
      intro hcontra
      rw [hcontra] at hp
      rw [hp] at hf
      exact Bool.noConfusion hf
    cases h1 : env.retrieve f.download_url true with
    | ok cc => simp [hf, h1, content_write_ne _ _ _ _ hne, h]
    | error e =>
      cases h2 : env.retrieve f.download_url false with
      | ok cc => simp [hf, h1, h2, content_write_ne _ _ _ _ hne, h]
      | error e2 => simp [hf, h1, h2, h]

theorem loopPure_content (env : FetchEnv) (dirPath : String)
    (files : List FileEntry) (p c : String) :
    ∀ fs : FileSys, fs.content p = some c →
      (loopPure env dirPath files fs).1.content p = some c := by
  induction files with
  | nil => intro fs h; exact h
  | cons f rest ih =>
    intro fs h
    exact ih _ (fetchOnePure_content env dirPath fs f p c h)

theorem fetchOnePure_skip (env : FetchEnv) (dirPath : String) (fs : FileSys)
    (f : FileEntry) (h : fs.hasFile (localPath dirPath f) = true) :
    fetchOnePure env dirPath fs f = (fs, []) := by
  unfold fetchOnePure
  simp [h]

theorem loopPure_skips_present (env : FetchEnv) (dirPath : String)
    (files : List FileEntry) :
    ∀ fs : FileSys, ∀ p ∈ files.zip (loopPure env dirPath files fs).2,
      fs.hasFile (localPath dirPath p.1) = true → p.2 = [] := by
  induction files with
  | nil => intro fs p hp; simp [loopPure] at hp
  | cons f rest ih =>
    intro fs p hp hpresent
    simp only [loopPure, List.zip_cons_cons, List.mem_cons] at hp
    rcases hp with hp | hp
    · subst hp
      rw [fetchOnePure_skip env dirPath fs f hpresent]
    · exact ih (fetchOnePure env dirPath fs f).1 p hp
        (fetchOnePure_fs_hasFile env dirPath fs f _ hpresent)

theorem loopPure_unfetched (env : FetchEnv) (dirPath : String)
    (files : List FileEntry) :
    ∀ fs : FileSys, ∀ f ∈ files,
      (loopPure env dirPath files fs).1.hasFile (localPath dirPath f) = false →
      (∀ c, env.retrieve f.download_url true ≠ Except.ok c) ∧
      (∀ c, env.retrieve f.download_url false ≠ Except.ok c) := by
  induction files with
  | nil => intro fs f hf; simp at hf
  | cons g rest ih =>
    intro fs f hf habsent
    simp only [loopPure] at habsent
    rcases List.mem_cons.mp hf with hf | hf
    · subst hf
      constructor
      · intro c hc
        have h1 : (fetchOnePure env dirPath fs f).1.hasFile
            (localPath dirPath f) = true := by
          unfold fetchOnePure
          by_cases hpres : fs.hasFile (localPath dirPath f) = true
          · simp [hpres]
          · simp only [Bool.not_eq_true] at hpres
            simp [hpres, hc, hasFile_write]
        have h2 := loopPure_fs_hasFile env dirPath rest _ _ h1
        rw [h2] at habsent
        exact Bool.noConfusion habsent
      · intro c hc
        have h1 : (fetchOnePure env dirPath fs f).1.hasFile
            (localPath dirPath f) = true := by
          unfold fetchOnePure
          by_cases hpres : fs.hasFile (localPath dirPath f) = true
          · simp [hpres]
          · simp only [Bool.not_eq_true] at hpres
            cases hr1 : env.retrieve f.download_url true with
            | ok cc => simp [hpres, hr1, hasFile_write]
            | error e => simp [hpres, hr1, hc, hasFile_write]
        have h2 := loopPure_fs_hasFile env dirPath rest _ _ h1
        rw [h2] at habsent
        exact Bool.noConfusion habsent
    · exact ih (fetchOnePure env dirPath fs g).1 f hf habsent

theorem fetchOnePure_nochange (env : FetchEnv) (dirPath : String)
    (fs : FileSys) (f : FileEntry)
    (h1 : ∀ c, env.retrieve f.download_url true ≠ Except.ok c)
    (h2 : ∀ c, env.retrieve f.download_url false ≠ Except.ok c)
    (habs : fs.hasFile (localPath dirPath f) = false) :
    fetchOnePure env dirPath fs f =
      (fs, [Ev.attempt f.download_url true,
            Ev.attempt f.download_url false]) := by
  unfold fetchOnePure
  cases hr1 : env.retrieve f.download_url true with
  | ok c => exact absurd hr1 (h1 c)
  | error e =>
    cases hr2 : env.retrieve f.download_url false with
    | ok c => exact absurd hr2 (h2 c)
    | error e2 => simp [habs, hr1, hr2]

theorem loopPure_stable (env : FetchEnv) (dirPath : String)
    (files : List FileEntry) :
    ∀ F : FileSys,
      (∀ f ∈ files, F.hasFile (localPath dirPath f) = false →
        (∀ c, env.retrieve f.download_url true ≠ Except.ok c) ∧
        (∀ c, env.retrieve f.download_url false ≠ Except.ok c)) →
      (loopPure env dirPath files F).1 = F := by
  induction files with
  | nil => intro F _; rfl
  | cons f rest ih =>
    intro F hstable
    have hstep : (fetchOnePure env dirPath F f).1 = F := by
      by_cases hpres : F.hasFile (localPath dirPath f) = true
      · rw [fetchOnePure_skip env dirPath F f hpres]
      · simp only [Bool.not_eq_true] at hpres
        have hnot := hstable f (List.mem_cons_self f rest) hpres
        rw [fetchOnePure_nochange env dirPath F f hnot.1 hnot.2 hpres]
    simp only [loopPure, hstep]
    exact ih F (fun g hg => hstable g (List.mem_cons_of_mem f hg))

theorem loopPure_length (env : FetchEnv) (dirPath : String)
    (files : List FileEntry) :
    ∀ fs : FileSys,
      ((loopPure env dirPath files fs).2).length = files.length := by
  induction files with
  | nil => intro fs; rfl
  | cons f rest ih => intro fs; simp [loopPure, ih]

theorem fetchOnePure_chunkSpec (env : FetchEnv) (dirPath : String)
    (fs : FileSys) (f : FileEntry) (h : noNetworkErr env) :
    chunkSpec env f (fetchOnePure env dirPath fs f).2 := by
  unfold fetchOnePure chunkSpec
  by_cases hf : fs.hasFile (localPath dirPath f) = true
  · left; simp [hf]
  · simp only [Bool.not_eq_true] at hf
    cases h1 : env.retrieve f.download_url true with
    | ok c =>
      right; left
      exact ⟨c, rfl, by simp [hf]⟩
    | error e =>
      cases e with
      | network => exact absurd h1 (h _ _)
      | http code =>
        right; right
        refine ⟨code, rfl, ?_⟩
        cases h2 : env.retrieve f.download_url false with
        | ok c => simp [hf, h1, h2]
        | error e2 => simp [hf, h1, h2]

theorem loopPure_chunkSpec (env : FetchEnv) (dirPath : String)
    (files : List FileEntry) (h : noNetworkErr env) :
    ∀ fs : FileSys, ∀ p ∈ files.zip (loopPure env dirPath files fs).2,
      chunkSpec env p.1 p.2 := by
  induction files with
  | nil => intro fs p hp; simp [loopPure] at hp
  | cons f rest ih =>
    intro fs p hp
    simp only [loopPure, List.zip_cons_cons, List.mem_cons] at hp
    rcases hp with hp | hp
    · subst hp
      exact fetchOnePure_chunkSpec env dirPath fs f h
    · exact ih _ p hp

theorem fetchOnePure_events_attempts (env : FetchEnv) (dirPath : String)
    (fs : FileSys) (f : FileEntry) :
    ∀ e ∈ (fetchOnePure env dirPath fs f).2, ∃ u b, e = Ev.attempt u b := by
  intro e he
  unfold fetchOnePure at he
  by_cases hf : fs.hasFile (localPath dirPath f) = true
  · simp [hf] at he
  · simp only [Bool.not_eq_true] at hf
    cases h1 : env.retrieve f.download_url true with
    | ok c =>
      simp [hf, h1] at he
      exact ⟨f.download_url, true, he⟩
    | error e1 =>
      cases h2 : env.retrieve f.download_url false with
      | ok c =>
        simp [hf, h1, h2] at he
        rcases he with he | he
        · exact ⟨f.download_url, true, he⟩
        · exact ⟨f.download_url, false, he⟩
      | error e2 =>
        simp [hf, h1, h2] at he
        rcases he with he | he
        · exact ⟨f.download_url, true, he⟩
        · exact ⟨f.download_url, false, he⟩

theorem loopPure_events_attempts (env : FetchEnv) (dirPath : String)
    (files : List FileEntry) :
    ∀ fs : FileSys, ∀ e ∈ ((loopPure env dirPath files fs).2).flatten,
      ∃ u b, e = Ev.attempt u b := by
  induction files with
  | nil => intro fs e he; simp [loopPure] at he
  | cons f rest ih =>
    intro fs e he
    simp only [loopPure, List.flatten_cons, List.mem_append] at he
    rcases he with he | he
    · exact fetchOnePure_events_attempts env dirPath fs f e he
    · exact ih _ e he

/-! ## Theorems -/

/-- C2 counterexample: two accounts, every count lookup fine, the
group-role lookup failing for exactly one account — `get_account_details`
does not return 2 records: the unguarded `get_account_group_roles` call
aborts the whole aggregation. -/
theorem get_account_details_role_failure_aborts :
    envRoleFail.accounts.length = 2 ∧
    envRoleFail.groups ≠ [] ∧
    (envRoleFail.roles 1).isOk = true ∧
    (envRoleFail.roles 2).isOk = false ∧
    (get_account_details envRoleFail true false).isOk = false := by decide

/-- C2 (amended): a failing *count* lookup never aborts aggregation: when
every listed account's group-role lookup succeeds and the institution has
at least one group (a zero-group institution aborts separately on the
`groups_df['id']` subscript), `get_account_details` returns exactly one row
per listed account — failed counts zero, successful counts the returned
page lengths (see `detailPure`) — no matter which impersonated count
lookups fail.  A failing group-role lookup, by contrast, aborts the whole
aggregation (counterexample above). -/
theorem get_account_details_count_failures_isolated (env : FigEnv)
    (hne : env.accounts ≠ []) (hg : env.groups ≠ [])
    (hroles : ∀ a ∈ listedAccounts env, (env.roles a.id).isOk = true) :
    ∃ rows ws, get_account_details env true false = Except.ok (rows, ws) ∧
      rows.length = (listedAccounts env).length ∧
      rows = ((listedAccounts env).map (detailPure env true)).map
        (withGroupNames env) := by
  refine ⟨_, _, get_account_details_ok env hne hg hroles, ?_, rfl⟩
  simp [List.length_map]

/-- Witness for the amended C2 at `envW`: two accounts, one group, the
articles lookup failing for the second account only. -/
theorem get_account_details_count_failures_isolated_witness :
    (envW.accounts ≠ [] ∧ envW.groups ≠ [] ∧
      ∀ a ∈ listedAccounts envW, (envW.roles a.id).isOk = true) ∧
    (∃ rows ws, get_account_details envW true false = Except.ok (rows, ws) ∧
      rows.length = (listedAccounts envW).length ∧
      rows = ((listedAccounts envW).map (detailPure envW true)).map
        (withGroupNames envW)) :=
  ⟨⟨by decide, by decide, by decide⟩,
    get_account_details_count_failures_isolated envW
      (by decide) (by decide) (by decide)⟩

/-- C3: each of the three per-account count lookups is individually
guarded: with all group-role lookups succeeding and at least one group
(the zero-group `groups_df['id']` subscript aborts after the loop,
separately from the count guards), aggregation completes with one
(group-substituted) row per listed account, and for each account a failed
articles/projects/collections lookup leaves exactly that count zero and
logs the warning naming the account and the resource, while a successful
lookup's count is the length of the returned listing. -/
theorem get_account_details_guards_each_count (env : FigEnv)
    (hne : env.accounts ≠ []) (hg : env.groups ≠ [])
    (hroles : ∀ a ∈ listedAccounts env, (env.roles a.id).isOk = true) :
    ∃ ws,
      get_account_details env true false =
        Except.ok
          (((listedAccounts env).map (detailPure env true)).map
            (withGroupNames env), ws) ∧
      ∀ a ∈ listedAccounts env,
        ((get_user_articles env a.id).isOk = false →
          (detailPure env true a).articles = 0 ∧
            countWarn "articles" a.id ∈ ws) ∧
        (∀ l, get_user_articles env a.id = Except.ok l →
          (detailPure env true a).articles = l.length) ∧
        ((get_user_projects env a.id).isOk = false →
          (detailPure env true a).projects = 0 ∧
            countWarn "projects" a.id ∈ ws) ∧
        (∀ l, get_user_projects env a.id = Except.ok l →
          (detailPure env true a).projects = l.length) ∧
        ((get_user_collections env a.id).isOk = false →
          (detailPure env true a).collections = 0 ∧
            countWarn "collections" a.id ∈ ws) ∧
        (∀ l, get_user_collections env a.id = Except.ok l →
          (detailPure env true a).collections = l.length) := by
  refine ⟨_, get_account_details_ok env hne hg hroles, ?_⟩
  intro a ha
  refine ⟨?_, ?_, ?_, ?_, ?_, ?_⟩
  · intro h
    cases hA : get_user_articles env a.id with
    | ok l => rw [hA] at h; simp [Except.isOk, Except.toBool] at h
    | error e =>
      refine ⟨by simp [detailPure, countOf, hA], ?_⟩
      refine List.mem_flatMap.mpr ⟨a, ha, ?_⟩
      simp [warnsPure, warnOf, hA]
  · intro l hl
    simp [detailPure, countOf, hl]
  · intro h
    cases hA : get_user_projects env a.id with
    | ok l => rw [hA] at h; simp [Except.isOk, Except.toBool] at h
    | error e =>
      refine ⟨by simp [detailPure, countOf, hA], ?_⟩
      refine List.mem_flatMap.mpr ⟨a, ha, ?_⟩
      simp [warnsPure, warnOf, hA]
  · intro l hl
    simp [detailPure, countOf, hl]
  · intro h
    cases hA : get_user_collections env a.id with
    | ok l => rw [hA] at h; simp [Except.isOk, Except.toBool] at h
    | error e =>
      refine ⟨by simp [detailPure, countOf, hA], ?_⟩
      refine List.mem_flatMap.mpr ⟨a, ha, ?_⟩
      simp [warnsPure, warnOf, hA]
  · intro l hl
    simp [detailPure, countOf, hl]

/-- Witness for C3 at `envW`: the failing articles lookup of account 2
yields a zero count plus its warning; account 1's counts are the page
lengths. -/
theorem get_account_details_guards_each_count_witness :
    (envW.accounts ≠ [] ∧ envW.groups ≠ [] ∧
      ∀ a ∈ listedAccounts envW, (envW.roles a.id).isOk = true) ∧
    (∃ ws,
      get_account_details envW true false =
        Except.ok
          (((listedAccounts envW).map (detailPure envW true)).map
            (withGroupNames envW), ws) ∧
      ∀ a ∈ listedAccounts envW,
        ((get_user_articles envW a.id).isOk = false →
          (detailPure envW true a).articles = 0 ∧
            countWarn "articles" a.id ∈ ws) ∧
        (∀ l, get_user_articles envW a.id = Except.ok l →
          (detailPure envW true a).articles = l.length) ∧
        ((get_user_projects envW a.id).isOk = false →
          (detailPure envW true a).projects = 0 ∧
            countWarn "projects" a.id ∈ ws) ∧
        (∀ l, get_user_projects envW a.id = Except.ok l →
          (detailPure envW true a).projects = l.length) ∧
        ((get_user_collections envW a.id).isOk = false →
          (detailPure envW true a).collections = 0 ∧
            countWarn "collections" a.id ∈ ws) ∧
        (∀ l, get_user_collections envW a.id = Except.ok l →
          (detailPure envW true a).collections = l.length)) :=
  ⟨⟨by decide, by decide, by decide⟩,
    get_account_details_guards_each_count envW
      (by decide) (by decide) (by decide)⟩

/-- C8: with zero institutional accounts, `get_account_list` fails —
`pd.DataFrame([])` has no columns, so `drop(columns='institution_id')`
raises a `KeyError` — and `get_account_details` fails with it, instead of
returning the empty well-formed record set the spec requires. -/
theorem get_account_list_empty_raises :
    get_account_list [] false = Except.error ("KeyError: " ++ "institution_id") ∧
    (get_account_details envEmpty true false).isOk = false :=
  ⟨rfl, rfl⟩

/-- C1 counterexample: against a service holding 2250 article records,
`get_articles` returns only the first 1000 — not all 2250 as the claim
states — because it issues a single page-1 request and never loops. -/
theorem get_articles_not_paginated :
    (get_articles (List.replicate 2250 (0 : Nat))).1.length = 1000 ∧
    ¬ (get_articles (List.replicate 2250 (0 : Nat))).1.length = 2250 := by
  have h : (get_articles (List.replicate 2250 (0 : Nat))).1.length = 1000 := by
    simp only [get_articles, pageOf, List.length_take, List.length_drop,
      List.length_replicate]
    norm_num
  exact ⟨h, by rw [h]; norm_num⟩

/-- C1 (amended): every listing operation issues exactly one request, for
page 1 with page size 1000, and returns exactly the first 1000 (or fewer)
records of the service's store; it never requests a second page, so records
beyond the first 1000 are silently dropped. -/
theorem get_articles_single_page (records : List Nat) :
    (get_articles records).1 = records.take 1000 ∧
    (get_articles records).2 = 1 := by
  constructor
  · simp [get_articles, pageOf]
  · rfl

/-- C9: `doi_check` returns `(check, doi)` with `check = true` iff the
article's `doi` field is non-empty, returns that field verbatim, and issues
only GET requests (no mutation of remote state). -/
theorem doi_check_spec (article_id : Nat) (doi : String) :
    ((doi_check article_id doi).1.1 = true ↔ doi ≠ "") ∧
    (doi_check article_id doi).1.2 = doi ∧
    ∀ r ∈ (doi_check article_id doi).2, ∃ e, r = Req.get e := by
  refine ⟨by simp [doi_check], rfl, ?_⟩
  intro r hr
  simp only [doi_check, List.mem_singleton] at hr
  exact ⟨articleUrl article_id, hr⟩

/-- C7: `reserve_doi` mints at most once per deposit: an already-reserved
DOI is returned with no prompt and no POST; a non-affirmative response
yields no POST and the unreserved placeholder; and two sequential calls
where the first mints issue exactly one POST in total, the second call
returning the same DOI without prompting. -/
theorem reserve_doi_exactly_once (article_id : Nat)
    (resp1 resp2 nresp mint d : String)
    (h1 : pyLower resp1 = "yes") (hm : mint ≠ "")
    (hn : pyLower nresp ≠ "yes") (hd : d ≠ "") :
    (reserve_doi article_id d resp1 mint =
      { returned := d, finalDoi := d,
        reqs := [Req.get (articleUrl article_id)], prompted := false }) ∧
    (reserve_doi article_id "" nresp mint =
      { returned := "", finalDoi := "",
        reqs := [Req.get (articleUrl article_id)], prompted := true }) ∧
    (mintCount ((reserve_doi article_id "" resp1 mint).reqs ++
        (reserve_doi article_id
          (reserve_doi article_id "" resp1 mint).finalDoi resp2 mint).reqs) = 1 ∧
      (reserve_doi article_id
        (reserve_doi article_id "" resp1 mint).finalDoi resp2 mint).returned =
        (reserve_doi article_id "" resp1 mint).returned ∧
      (reserve_doi article_id
        (reserve_doi article_id "" resp1 mint).finalDoi resp2 mint).prompted =
        false ∧
      (reserve_doi article_id "" resp1 mint).returned = mint) := by
  have hfirst : reserve_doi article_id "" resp1 mint =
      { returned := mint, finalDoi := mint,
        reqs := [Req.get (articleUrl article_id),
                 Req.post (reserveUrl article_id)], prompted := true } := by
    simp [reserve_doi, doi_check, h1]
  refine ⟨?_, ?_, ?_⟩
  · simp [reserve_doi, doi_check, hd]
  · simp [reserve_doi, doi_check, hn]
  · rw [hfirst]
    simp [reserve_doi, doi_check, hm, mintCount]

/-- Witness for C7 at concrete inputs: article 7, operator responses
`"Yes"` then `"no"`, minted DOI `"10.25422/x"`, pre-reserved DOI
`"10.25422/y"`. -/
theorem reserve_doi_exactly_once_witness :
    (pyLower "Yes" = "yes" ∧ ("10.25422/x" : String) ≠ "" ∧
      pyLower "no" ≠ "yes" ∧ ("10.25422/y" : String) ≠ "") ∧
    ((reserve_doi 7 "10.25422/y" "Yes" "10.25422/x" =
      { returned := "10.25422/y", finalDoi := "10.25422/y",
        reqs := [Req.get (articleUrl 7)], prompted := false }) ∧
    (reserve_doi 7 "" "no" "10.25422/x" =
      { returned := "", finalDoi := "",
        reqs := [Req.get (articleUrl 7)], prompted := true }) ∧
    (mintCount ((reserve_doi 7 "" "Yes" "10.25422/x").reqs ++
        (reserve_doi 7
          (reserve_doi 7 "" "Yes" "10.25422/x").finalDoi "no" "10.25422/x").reqs) = 1 ∧
      (reserve_doi 7
        (reserve_doi 7 "" "Yes" "10.25422/x").finalDoi "no" "10.25422/x").returned =
        (reserve_doi 7 "" "Yes" "10.25422/x").returned ∧
      (reserve_doi 7
        (reserve_doi 7 "" "Yes" "10.25422/x").finalDoi "no" "10.25422/x").prompted =
        false ∧
      (reserve_doi 7 "" "Yes" "10.25422/x").returned = "10.25422/x")) :=
  ⟨⟨by decide, by decide, by decide, by decide⟩,
    reserve_doi_exactly_once 7 "Yes" "no" "no" "10.25422/x" "10.25422/y"
      (by decide) (by decide) (by decide) (by decide)⟩

/-- C10: after `ReadmeClass.__init__`, `template_source` is `'user'` or
`'default'` — `'user'` exactly when the user template file exists and the
operator typed exactly `"Yes"` — hence never `'unknown'`, so the workflow's
stage-advancement confirmation prompt guard always holds. -/
theorem template_source_invariant (e : Bool) (r : String) :
    (template_source e r = "user" ∨ template_source e r = "default") ∧
    (template_source e r = "user" ↔ (e = true ∧ r = "Yes")) ∧
    stage_prompt_reached (template_source e r) = true := by
  cases e <;> by_cases hr : r = "Yes" <;>
    simp [template_source, stage_prompt_reached, hr]

/-- C4: `download_files` never re-fetches a present file: within a run, a
file whose local path already exists gets an empty event chunk (no
retrieval attempt), and every pre-existing file's content is preserved;
consequently a second run over the same list and directory returns the
identical final file set and attempts nothing for any file present after
the first run. -/
theorem download_files_idempotent (env : FetchEnv) (dirPath : String)
    (files : List FileEntry) (fs0 : FileSys) (h : noNetworkErr env) :
    ∃ r1 r2 chunks1 chunks2,
      download_files env dirPath files fs0 = Except.ok r1 ∧
      download_files env dirPath files r1.fs = Except.ok r2 ∧
      r1.events = dlStart dirPath ++ chunks1.flatten ++ [dlLock dirPath] ∧
      r2.events = dlStart dirPath ++ chunks2.flatten ++ [dlLock dirPath] ∧
      chunks1.length = files.length ∧
      chunks2.length = files.length ∧
      (∀ p ∈ files.zip chunks1,
        fs0.hasFile (localPath dirPath p.1) = true → p.2 = []) ∧
      (∀ p ∈ files.zip chunks2,
        r1.fs.hasFile (localPath dirPath p.1) = true → p.2 = []) ∧
      (∀ p c, fs0.content p = some c → r1.fs.content p = some c) ∧
      r2.fs = r1.fs := by
  refine ⟨_, _, (loopPure env dirPath files fs0).2,
    (loopPure env dirPath files (loopPure env dirPath files fs0).1).2,
    download_files_char env dirPath files fs0 h,
    download_files_char env dirPath files (loopPure env dirPath files fs0).1 h,
    rfl, rfl,
    loopPure_length env dirPath files fs0,
    loopPure_length env dirPath files (loopPure env dirPath files fs0).1,
    loopPure_skips_present env dirPath files fs0,
    loopPure_skips_present env dirPath files (loopPure env dirPath files fs0).1,
    fun p c hc => loopPure_content env dirPath files p c fs0 hc,
    ?_⟩
  exact loopPure_stable env dirPath files (loopPure env dirPath files fs0).1
    (fun f hf habs => loopPure_unfetched env dirPath files fs0 f hf habs)

/-- Witness for C4: one file, an empty local directory, a transport that
rejects authenticated requests with HTTP 403 and serves anonymous ones. -/
theorem download_files_idempotent_witness :
    noNetworkErr envDL ∧
    (∃ r1 r2 chunks1 chunks2,
      download_files envDL "dir" [file500] [] = Except.ok r1 ∧
      download_files envDL "dir" [file500] r1.fs = Except.ok r2 ∧
      r1.events = dlStart "dir" ++ chunks1.flatten ++ [dlLock "dir"] ∧
      r2.events = dlStart "dir" ++ chunks2.flatten ++ [dlLock "dir"] ∧
      chunks1.length = [file500].length ∧
      chunks2.length = [file500].length ∧
      (∀ p ∈ [file500].zip chunks1,
        FileSys.hasFile [] (localPath "dir" p.1) = true → p.2 = []) ∧
      (∀ p ∈ [file500].zip chunks2,
        r1.fs.hasFile (localPath "dir" p.1) = true → p.2 = []) ∧
      (∀ p c, FileSys.content [] p = some c → r1.fs.content p = some c) ∧
      r2.fs = r1.fs) :=
  ⟨fun u b => by cases b <;> simp [envDL],
    download_files_idempotent envDL "dir" [file500] []
      (fun u b => by cases b <;> simp [envDL])⟩

/-- C5 counterexample: the authenticated attempt for the file fails with
HTTP 500 — a server error, not an authorization-class failure — yet
`download_files` issues the tokenless retry anyway (and it succeeds): the
fallback is keyed on `HTTPError` of any status, not on authorization. -/
theorem download_files_retries_on_non_auth :
    env500.retrieve file500.download_url true =
      Except.error (FetchErr.http 500) ∧
    (500 : Nat) ≠ 401 ∧ (500 : Nat) ≠ 403 ∧
    download_files env500 "dir" [file500] [] =
      Except.ok
        { fs := [(localPath "dir" file500, "content")],
          events := dlStart "dir" ++
            [Ev.attempt file500.download_url true,
             Ev.attempt file500.download_url false] ++ [dlLock "dir"] } := by
  exact ⟨rfl, by decide, by decide, rfl⟩

/-- C5 (amended): per file, the loop attempts authenticated retrieval
first and, on an `HTTPError` of any status — not only authorization-class
ones — retries exactly once without credentials; a second `HTTPError` is
only logged and the loop continues.  Hence each file causes at most two
retrieval attempts and no HTTP failure aborts the batch (only an uncaught
non-HTTP transport failure would). -/
theorem download_files_fallback_on_http (env : FetchEnv) (dirPath : String)
    (files : List FileEntry) (fs0 : FileSys) (h : noNetworkErr env) :
    ∃ fsOut chunks,
      download_files env dirPath files fs0 =
        Except.ok
          { fs := fsOut,
            events := dlStart dirPath ++ chunks.flatten ++
              [dlLock dirPath] } ∧
      chunks.length = files.length ∧
      ∀ p ∈ files.zip chunks, chunkSpec env p.1 p.2 :=
  ⟨_, _, download_files_char env dirPath files fs0 h,
    loopPure_length env dirPath files fs0,
    loopPure_chunkSpec env dirPath files h fs0⟩

/-- Witness for the amended C5: same concrete transport and file as the C4
witness; the 403 on the authenticated attempt yields the two-attempt
chunk. -/
theorem download_files_fallback_on_http_witness :
    noNetworkErr envDL ∧
    (∃ fsOut chunks,
      download_files envDL "dir" [file500] [] =
        Except.ok
          { fs := fsOut,
            events := dlStart "dir" ++ chunks.flatten ++ [dlLock "dir"] } ∧
      chunks.length = [file500].length ∧
      ∀ p ∈ [file500].zip chunks, chunkSpec envDL p.1 p.2) :=
  ⟨fun u b => by cases b <;> simp [envDL],
    download_files_fallback_on_http envDL "dir" [file500] []
      (fun u b => by cases b <;> simp [envDL])⟩

/-- C6: in every completed run of `download_files` the 0o555 lock-down is
the final event: it occurs exactly once, strictly after every file's
retrieval attempts, and never between two of them. -/
theorem download_files_locks_once_at_end (env : FetchEnv) (dirPath : String)
    (files : List FileEntry) (fs0 : FileSys) (h : noNetworkErr env) :
    ∃ r body, download_files env dirPath files fs0 = Except.ok r ∧
      r.events = body ++ [dlLock dirPath] ∧
      dlLock dirPath ∉ body := by
  refine ⟨_, dlStart dirPath ++ ((loopPure env dirPath files fs0).2).flatten,
    download_files_char env dirPath files fs0 h, rfl, ?_⟩
  intro hmem
  rcases List.mem_append.mp hmem with hmem | hmem
  · simp [dlStart, dlLock] at hmem
  · rcases loopPure_events_attempts env dirPath files fs0 _ hmem with ⟨u, b, he⟩
    simp [dlLock] at he

/-- Witness for C6: same concrete transport and file; the lock event ends
the trace. -/
theorem download_files_locks_once_at_end_witness :
    noNetworkErr envDL ∧
    (∃ r body, download_files envDL "dir" [file500] [] = Except.ok r ∧
      r.events = body ++ [dlLock "dir"] ∧
      dlLock "dir" ∉ body) :=
  ⟨fun u b => by cases b <;> simp [envDL],
    download_files_locks_once_at_end envDL "dir" [file500] []
      (fun u b => by cases b <;> simp [envDL])⟩

end LDCoolP
